import Mathlib

set_option maxRecDepth 100000

/-!
Verification of the seat inventory / reservation subsystem (src/seat-map.js)
and the dynamic-pricing function (src/search-flights.js) of the flight-booking
handlers, as a shallow embedding in Lean.

JS numbers that hold integers (rows, ages, epoch milliseconds) are modelled as
`Int`; monetary amounts and the pricing arithmetic as exact rationals `ℚ`;
JS arrays as `List`; thrown JS `Error`s as `Except String`; the DynamoDB record
for the requested flightId as `Option Flight`.
-/

/-- A flight record as stored in the Flights table and consumed by
seat-map.js / search-flights.js. -/
structure Flight where
  flightId : String
  totalSeats : Int
  availableSeats : Int
  occupiedSeats : List String
  emergencyExitRows : List Int
  premiumSeats : List String
  premiumSeatCost : ℚ
  basePrice : ℚ
deriving DecidableEq, Repr

/-- One entry of the derived seat map (the object literal pushed by
`generateSeatMap`). -/
structure Seat where
  id : String
  number : String
  status : String
  isEmergencyExit : Bool
  isPremium : Bool
deriving DecidableEq, Repr

/-- JS `String.fromCharCode(65 + seatNum)` as a one-character string. -/
def seatLetterStr (seatNum : Nat) : String :=
  String.mk [Char.ofNat (65 + seatNum)]

/-- The template literal `${row}${seatLetter}` of `generateSeatMap`. -/
def seatIdStr (row : Nat) (seatNum : Nat) : String :=
  toString row ++ seatLetterStr seatNum

/-- The object pushed by `generateSeatMap` for a given (row, seatNum). -/
def mkSeat (flight : Flight) (row : Nat) (seatNum : Nat) : Seat :=
  { id := seatIdStr row seatNum
    number := seatIdStr row seatNum
    status := if flight.occupiedSeats.contains (seatIdStr row seatNum)
              then "occupied" else "available"
    isEmergencyExit := flight.emergencyExitRows.contains ((row : Int))
    isPremium := flight.premiumSeats.contains (seatIdStr row seatNum) }

/-- Function `generateSeatMap(flight)` from src/seat-map.js: rows = 30, seatsPerRow = 6,
the nested loops `for row = 1..rows`, `for seatNum = 0..seatsPerRow-1`
pushing one seat per iteration, in order. -/
def generateSeatMap (flight : Flight) : List Seat :=
  (List.range 30).flatMap (fun r =>
    (List.range 6).map (fun seatNum => mkSeat flight (r + 1) seatNum))

/-- The sequence of seat ids the generator emits, in emission (row-major)
order: 1A, 1B, ..., 1F, 2A, ..., 30F. -/
def allSeatIds : List String :=
  (List.range 30).flatMap (fun r =>
    (List.range 6).map (fun seatNum => seatIdStr (r + 1) seatNum))

lemma generateSeatMap_eq_map_range (flight : Flight) :
    generateSeatMap flight =
      (List.range 180).map (fun i => mkSeat flight (i / 6 + 1) (i % 6)) := by
  rfl

lemma generateSeatMap_map_id (flight : Flight) :
    (generateSeatMap flight).map Seat.id = allSeatIds := by
  rfl

lemma generateSeatMap_length (flight : Flight) :
    (generateSeatMap flight).length = 180 := by
  rfl

lemma allSeatIds_nodup : allSeatIds.Nodup := by
  decide

/-- A flight with no occupied seat. -/
def flightEmpty : Flight :=
  { flightId := "FE", totalSeats := 180, availableSeats := 180,
    occupiedSeats := [], emergencyExitRows := [1, 12], premiumSeats := ["1A"],
    premiumSeatCost := 50, basePrice := 200 }

/-- A flight with every generated seat occupied. -/
def flightFull : Flight :=
  { flightEmpty with
    flightId := "FF", availableSeats := 0, occupiedSeats := allSeatIds }

/-- C1: for every flight record, `generateSeatMap` produces exactly 180 seats,
with pairwise-distinct ids, and the seat at position 6·r + c (row-major order:
1A, 1B, ..., 1F, 2A, ...) has id row‖letter, status "occupied" iff the id is in
`occupiedSeats` and "available" otherwise, `isEmergencyExit` iff the row is in
`emergencyExitRows`, and `isPremium` iff the id is in `premiumSeats`. -/
theorem generateSeatMap_spec (flight : Flight) :
    (generateSeatMap flight).length = 180 ∧
    ((generateSeatMap flight).map Seat.id).Nodup ∧
    ∀ r c : Nat, r < 30 → c < 6 →
      (generateSeatMap flight)[6 * r + c]? =
        some { id := seatIdStr (r + 1) c,
               number := seatIdStr (r + 1) c,
               status := if flight.occupiedSeats.contains (seatIdStr (r + 1) c)
                         then "occupied" else "available",
               isEmergencyExit :=
                 flight.emergencyExitRows.contains (((r + 1 : Nat) : Int)),
               isPremium := flight.premiumSeats.contains (seatIdStr (r + 1) c) } := by
  refine ⟨generateSeatMap_length flight, ?_, ?_⟩
  · rw [generateSeatMap_map_id]
    exact allSeatIds_nodup
  · intro r c hr hc
    rw [generateSeatMap_eq_map_range, List.getElem?_map,
      List.getElem?_range (show 6 * r + c < 180 by omega)]
    have h1 : (6 * r + c) / 6 = r := by omega
    have h2 : (6 * r + c) % 6 = c := by omega
    rw [Option.map_some', h1, h2]
    rfl

/-- C1 witness: the seat-map characterization evaluated on a flight with no
occupied seat and on a flight with all 180 seats occupied; seat 1B (index 1)
is available on the former and occupied on the latter. -/
theorem generateSeatMap_spec_witness :
    (generateSeatMap flightEmpty).length = 180 ∧
    ((generateSeatMap flightFull).map Seat.id).Nodup ∧
    (generateSeatMap flightEmpty)[1]? =
      some { id := "1B", number := "1B", status := "available",
             isEmergencyExit := true, isPremium := false } ∧
    (generateSeatMap flightFull)[1]? =
      some { id := "1B", number := "1B", status := "occupied",
             isEmergencyExit := true, isPremium := false } := by
  refine ⟨(generateSeatMap_spec flightEmpty).1, (generateSeatMap_spec flightFull).2.1, ?_, ?_⟩
  · exact ((generateSeatMap_spec flightEmpty).2.2 0 1 (by decide) (by decide)).trans (by decide)
  · exact ((generateSeatMap_spec flightFull).2.2 0 1 (by decide) (by decide)).trans (by decide)

/-- A calendar date as the JS code reads it off a `Date`: `getFullYear()`,
`getMonth()` (0-based month index) and `getDate()` (day of month). `new Date()`
(today) and `new Date(dateOfBirth)` are modelled as values of this type. -/
structure SimpleDate where
  year : Int
  month : Int
  day : Int
deriving DecidableEq, Repr

/-- A passenger record as used by the seat-map handler: only `dateOfBirth`
is read. -/
structure Passenger where
  dateOfBirth : SimpleDate
deriving DecidableEq, Repr

/-- Function `calculateAge(dateOfBirth)` from src/seat-map.js, with the current date
passed explicitly: year difference, decremented when the birthday month/day
has not been reached yet this year. -/
def calculateAge (today : SimpleDate) (birthDate : SimpleDate) : Int :=
  let age := today.year - birthDate.year
  let monthDiff := today.month - birthDate.month
  if monthDiff < 0 ∨ (monthDiff = 0 ∧ today.day < birthDate.day) then age - 1
  else age

/-- Function `isEligibleForEmergencyRow(passenger)` from src/seat-map.js:
`age >= 15 && age <= 75`. -/
def isEligibleForEmergencyRow (today : SimpleDate) (passenger : Passenger) : Bool :=
  let age := calculateAge today passenger.dateOfBirth
  decide (15 ≤ age) && decide (age ≤ 75)

/-- JS `parseInt(seat)` on the argument strings occurring here (no leading
whitespace or sign): the maximal leading run of decimal digits read as a
base-10 integer; `NaN` (no leading digit) is modelled as `none`. -/
def parseIntJS (s : String) : Option Int :=
  let ds := s.data.takeWhile (fun ch => ch.isDigit)
  if ds.isEmpty then none
  else some (ds.foldl (fun acc ch => acc * 10 + ((ch.toNat : Int) - 48)) 0)

/-- The regex `/^[1-9]\d?[A-F]$/` of `validateSeatSelection`: one digit 1-9,
an optional second digit, then one letter A-F. -/
def seatPattern (s : String) : Bool :=
  match s.data with
  | [d, l] =>
      (decide (49 ≤ d.toNat) && decide (d.toNat ≤ 57)) &&
      (decide (65 ≤ l.toNat) && decide (l.toNat ≤ 70))
  | [d1, d2, l] =>
      (decide (49 ≤ d1.toNat) && decide (d1.toNat ≤ 57)) && d2.isDigit &&
      (decide (65 ≤ l.toNat) && decide (l.toNat ≤ 70))
  | _ => false

/-- Function `validateSeatSelection(seats, passengers)` from src/seat-map.js.  The
`Array.isArray` shape check is modelled away by typing `seats` as a list;
then: empty selection is fine, more seats than passengers is not, and every
seat id must match the pattern. -/
def validateSeatSelection (seats : List String) (passengers : List Passenger) : Bool :=
  if seats.length = 0 then true
  else if passengers.length < seats.length then false
  else seats.all seatPattern

/-- Function `validateSeatAvailability(seats, flight)` from src/seat-map.js: empty
selection is fine, otherwise no selected seat may already be in
`flight.occupiedSeats` (the JS `flight.occupiedSeats &&` guard is always
truthy here since the field is always present in the model). -/
def validateSeatAvailability (seats : List String) (flight : Flight) : Bool :=
  if seats.length = 0 then true
  else if 0 < (seats.filter (fun seat => flight.occupiedSeats.contains seat)).length
  then false
  else true

/-- The body of the `seats.every((seat, index) => ...)` callback in
`validateEmergencyExitRows`, for one seat and the passenger found at the same
index (if any: absence models the JS `undefined` access, which throws). -/
def emCheckOne (today : SimpleDate) (flight : Flight) (seat : String)
    (passenger? : Option Passenger) : Bool :=
  match parseIntJS seat with
  | none => true
  | some row =>
      if flight.emergencyExitRows.contains row then
        match passenger? with
        | some p => isEligibleForEmergencyRow today p
        | none => false
      else true

/-- The loop `seats.every((seat, index) => ...)` of `validateEmergencyExitRows`,
realized by walking the seat list while shifting the positionally-indexed
passenger list along. -/
def emEvery (today : SimpleDate) (flight : Flight) :
    List String → List Passenger → Bool
  | [], _ => true
  | seat :: rest, passengers =>
      emCheckOne today flight seat passengers.head? &&
      emEvery today flight rest passengers.tail

/-- Function `validateEmergencyExitRows(seats, passengers, flight)` from
src/seat-map.js: empty selection is fine, otherwise every seat whose
`parseInt` row is an emergency-exit row needs an eligible passenger at the
same position. -/
def validateEmergencyExitRows (today : SimpleDate) (seats : List String)
    (passengers : List Passenger) (flight : Flight) : Bool :=
  if seats.length = 0 then true
  else emEvery today flight seats passengers

/-- Function `calculateSeatCost(seats, flight)` from src/seat-map.js: reduce over the
selected seats, adding `premiumSeatCost` for each seat found in
`premiumSeats`. -/
def calculateSeatCost (seats : List String) (flight : Flight) : ℚ :=
  seats.foldl
    (fun total seat =>
      if flight.premiumSeats.contains seat then total + flight.premiumSeatCost
      else total) 0

/-- C6: a selection of length 0 passes `validateSeatSelection` — and the
availability and emergency-row checks behind it — whatever the passenger list
and the flight record hold. -/
theorem validate_empty_selection (passengers : List Passenger) (flight : Flight)
    (today : SimpleDate) :
    validateSeatSelection [] passengers = true ∧
    validateSeatAvailability [] flight = true ∧
    validateEmergencyExitRows today [] passengers flight = true :=
  ⟨rfl, rfl, rfl⟩

lemma emCheckOne_eq_true_iff (today : SimpleDate) (flight : Flight)
    (seat : String) (passenger? : Option Passenger) :
    emCheckOne today flight seat passenger? = true ↔
      ∀ row : Int, parseIntJS seat = some row →
        flight.emergencyExitRows.contains row = true →
        ∃ p : Passenger, passenger? = some p ∧
          15 ≤ calculateAge today p.dateOfBirth ∧
          calculateAge today p.dateOfBirth ≤ 75 := by
  unfold emCheckOne
  cases hp : parseIntJS seat with
  | none => simp
  | some row =>
      simp only [Option.some.injEq]
      by_cases hc : flight.emergencyExitRows.contains row = true
      · rw [if_pos hc]
        cases passenger? with
        | none =>
            simp only [Bool.false_eq_true, false_iff, not_forall]
            exact ⟨row, rfl, hc, by simp⟩
        | some p =>
            simp only [isEligibleForEmergencyRow, Bool.and_eq_true,
              decide_eq_true_eq, Option.some.injEq]
            constructor
            · rintro ⟨h1, h2⟩ row' hrow' _
              exact ⟨p, rfl, h1, h2⟩
            · intro h
              obtain ⟨p', hp', h1, h2⟩ := h row rfl hc
              cases hp'
              exact ⟨h1, h2⟩
      · rw [if_neg hc]
        simp only [true_iff]
        intro row' hrow' hc'
        cases hrow'
        exact absurd hc' hc

lemma emEvery_eq_true_iff (today : SimpleDate) (flight : Flight) :
    ∀ (seats : List String) (passengers : List Passenger),
      emEvery today flight seats passengers = true ↔
        ∀ (i : Nat) (seat : String) (row : Int), seats[i]? = some seat →
          parseIntJS seat = some row →
          flight.emergencyExitRows.contains row = true →
          ∃ p : Passenger, passengers[i]? = some p ∧
            15 ≤ calculateAge today p.dateOfBirth ∧
            calculateAge today p.dateOfBirth ≤ 75 := by
  intro seats
  induction seats with
  | nil => intro passengers; simp [emEvery]
  | cons seat rest ih =>
      intro passengers
      rw [show emEvery today flight (seat :: rest) passengers =
            (emCheckOne today flight seat passengers.head? &&
             emEvery today flight rest passengers.tail) from rfl]
      rw [Bool.and_eq_true, emCheckOne_eq_true_iff, ih passengers.tail]
      constructor
      · rintro ⟨h0, hrest⟩ i s row hs hrow hc
        cases i with
        | zero =>
            rw [List.getElem?_cons_zero, Option.some.injEq] at hs
            subst hs
            obtain ⟨p, hp, hb⟩ := h0 row hrow hc
            refine ⟨p, ?_, hb⟩
            cases passengers with
            | nil => simp at hp
            | cons q qs => simpa using hp
        | succ n =>
            rw [List.getElem?_cons_succ] at hs
            obtain ⟨p, hp, hb⟩ := hrest n s row hs hrow hc
            refine ⟨p, ?_, hb⟩
            rw [List.getElem?_tail] at hp
            exact hp
      · intro h
        constructor
        · intro row hrow hc
          obtain ⟨p, hp, hb⟩ := h 0 seat row (by simp) hrow hc
          refine ⟨p, ?_, hb⟩
          cases passengers with
          | nil => simp at hp
          | cons q qs => simpa using hp
        · intro n s row hs hrow hc
          obtain ⟨p, hp, hb⟩ := h (n + 1) s row (by simpa using hs) hrow hc
          refine ⟨p, ?_, hb⟩
          rw [List.getElem?_tail]
          exact hp

lemma validateEmergencyExitRows_eq_emEvery (today : SimpleDate)
    (seats : List String) (passengers : List Passenger) (flight : Flight) :
    validateEmergencyExitRows today seats passengers flight =
      emEvery today flight seats passengers := by
  cases seats with
  | nil => rfl
  | cons s rest => rfl

/-- The reference "today" used for concrete age computations:
October 12, 2026 (JS month index 9). -/
def refDate : SimpleDate := { year := 2026, month := 9, day := 12 }

/-- A passenger born January 1 of the given year. -/
def passengerBorn (y : Int) : Passenger :=
  { dateOfBirth := { year := y, month := 0, day := 1 } }

/-- C4: `validateEmergencyExitRows` succeeds exactly when every selected seat
whose parsed row is an emergency-exit row has, at the same position, a
passenger whose `calculateAge` (floor of whole elapsed years, month/day
adjusted) lies in the inclusive range [15, 75]; concretely, on an exit-row
seat a passenger aged exactly 15 or exactly 75 passes while one aged exactly
14 or exactly 76 is rejected. -/
theorem validateEmergencyExitRows_age_range (today : SimpleDate)
    (seats : List String) (passengers : List Passenger) (flight : Flight) :
    (validateEmergencyExitRows today seats passengers flight = true ↔
      ∀ (i : Nat) (seat : String) (row : Int), seats[i]? = some seat →
        parseIntJS seat = some row →
        flight.emergencyExitRows.contains row = true →
        ∃ p : Passenger, passengers[i]? = some p ∧
          15 ≤ calculateAge today p.dateOfBirth ∧
          calculateAge today p.dateOfBirth ≤ 75) ∧
    (calculateAge refDate (passengerBorn 2011).dateOfBirth = 15 ∧
     validateEmergencyExitRows refDate ["1A"] [passengerBorn 2011] flightEmpty = true) ∧
    (calculateAge refDate (passengerBorn 1951).dateOfBirth = 75 ∧
     validateEmergencyExitRows refDate ["1A"] [passengerBorn 1951] flightEmpty = true) ∧
    (calculateAge refDate (passengerBorn 2012).dateOfBirth = 14 ∧
     validateEmergencyExitRows refDate ["1A"] [passengerBorn 2012] flightEmpty = false) ∧
    (calculateAge refDate (passengerBorn 1950).dateOfBirth = 76 ∧
     validateEmergencyExitRows refDate ["1A"] [passengerBorn 1950] flightEmpty = false) := by
  refine ⟨?_, by decide, by decide, by decide, by decide⟩
  rw [validateEmergencyExitRows_eq_emEvery]
  exact emEvery_eq_true_iff today flight seats passengers

/-- A response body as built by the seat-map handler: the seat-map payload,
the reservation payload, or an error object (the catch-all also attaches the
thrown message as `details`). -/
inductive RespBody where
  | seatMapBody (seats : List Seat) (emergencyExitRows : List Int)
      (premiumSeats : List String)
  | reserveOk (seatAssignments : List String) (additionalCost : ℚ)
  | err (error : String) (details : Option String)
deriving DecidableEq, Repr

/-- Function `createResponse(statusCode, body)` from src/seat-map.js (the constant CORS
headers carry no information and are dropped). -/
structure Response where
  statusCode : Nat
  body : RespBody
deriving DecidableEq, Repr

def createResponse (statusCode : Nat) (body : RespBody) : Response :=
  { statusCode := statusCode, body := body }

/-- Function `getFlight(flightId)` (and the lookup inside `getSeatMap`) from
src/seat-map.js: the GetCommand result for the requested flightId is passed in
as `record`; a missing record throws `Error('Flight not found')`. -/
def getFlight (record : Option Flight) : Except String Flight :=
  match record with
  | some flight => .ok flight
  | none => .error "Flight not found"

/-- Function `reserveSeats(flightId, seats)` from src/seat-map.js as the handler sees
it: the conditional UpdateCommand either succeeds or raises
ConditionalCheckFailedException (the flight record no longer exists at commit
time, `existsAtCommit = false`), which the function rethrows as
`Error('Concurrent seat reservation detected')`. -/
def reserveSeats (existsAtCommit : Bool) (flightId : String)
    (seats : List String) : Except String Unit :=
  if existsAtCommit then .ok () else .error "Concurrent seat reservation detected"

/-- The effect of the UpdateCommand of `reserveSeats` on the stored record:
`SET occupiedSeats = list_append(occupiedSeats, :seats)` appends the reserved
seats at the end of `occupiedSeats` and touches no other attribute. -/
def applyReserve (flight : Flight) (seats : List String) : Flight :=
  { flight with occupiedSeats := flight.occupiedSeats ++ seats }

/-- The conditional update of `reserveSeats` as a store transition: guarded by
`ConditionExpression: attribute_exists(flightId)`, so it commits exactly when
the record still exists, and fails with the rethrown concurrent-reservation
error otherwise. -/
def reserveSeatsStore (record : Option Flight) (seats : List String) :
    Except String (Option Flight) :=
  match record with
  | some flight => .ok (some (applyReserve flight seats))
  | none => .error "Concurrent seat reservation detected"

/-- The handler's catch-all (src/seat-map.js lines 87-93): any thrown error
becomes a 500 response with the thrown message in `details`. -/
def runCatch (act : Except String Response) : Response :=
  match act with
  | .ok resp => resp
  | .error e => createResponse 500 (.err "Internal server error" (some e))

/-- The `getSeatMap` action of the handler: reject a missing flightId (JS
falsiness of the string, i.e. `""` here), then look the flight up and return
the generated seat map; a thrown `Flight not found` is converted by the
catch-all. -/
def getSeatMapFlow (record : Option Flight) (flightId : String) : Response :=
  runCatch (do
    if flightId = "" then
      return createResponse 400 (.err "Flight ID is required" none)
    let flight ← getFlight record
    return createResponse 200
      (.seatMapBody (generateSeatMap flight) flight.emergencyExitRows
        flight.premiumSeats))

/-- The `reserveSeats` action of the handler (src/seat-map.js lines 44-82):
field-presence check (modelled for the string field), selection validation,
flight lookup, availability and emergency-exit validation, conditional
reservation, then the success payload with the premium-seat cost. -/
def reserveFlow (today : SimpleDate) (record : Option Flight)
    (existsAtCommit : Bool) (flightId : String) (seats : List String)
    (passengers : List Passenger) : Response :=
  runCatch (do
    if flightId = "" then
      return createResponse 400
        (.err "Missing required fields: flightId, seats, and passengers are required" none)
    if validateSeatSelection seats passengers = false then
      return createResponse 400 (.err "Invalid seat selection" none)
    let flight ← getFlight record
    if validateSeatAvailability seats flight = false then
      return createResponse 409 (.err "Selected seats are no longer available" none)
    if validateEmergencyExitRows today seats passengers flight = false then
      return createResponse 400 (.err "Invalid emergency exit row selection" none)
    let _ ← reserveSeats existsAtCommit flightId seats
    return createResponse 200 (.reserveOk seats (calculateSeatCost seats flight)))

/-- C7: a successful conditional commit changes the stored record only by
appending the selected seat ids at the end of `occupiedSeats`; every other
field — `availableSeats` in particular, which is never recomputed here — is
left unchanged. -/
theorem reserve_frame (flight : Flight) (seats : List String)
    (result : Option Flight)
    (h : reserveSeatsStore (some flight) seats = .ok result) :
    ∃ flight', result = some flight' ∧
      flight'.occupiedSeats = flight.occupiedSeats ++ seats ∧
      flight'.flightId = flight.flightId ∧
      flight'.totalSeats = flight.totalSeats ∧
      flight'.availableSeats = flight.availableSeats ∧
      flight'.emergencyExitRows = flight.emergencyExitRows ∧
      flight'.premiumSeats = flight.premiumSeats ∧
      flight'.premiumSeatCost = flight.premiumSeatCost ∧
      flight'.basePrice = flight.basePrice := by
  refine ⟨applyReserve flight seats, ?_, rfl, rfl, rfl, rfl, rfl, rfl, rfl, rfl⟩
  have h' : Except.ok (ε := String) (some (applyReserve flight seats)) = .ok result := h
  exact (Except.ok.inj h').symm

/-- C7 witness: the frame property read off a concrete commit. -/
theorem reserve_frame_witness :
    (applyReserve flightEmpty ["2B"]).occupiedSeats =
      flightEmpty.occupiedSeats ++ ["2B"] ∧
    (applyReserve flightEmpty ["2B"]).availableSeats = flightEmpty.availableSeats := by
  obtain ⟨flight', hf, hocc, _, _, hav, _⟩ :=
    reserve_frame flightEmpty ["2B"] (some (applyReserve flightEmpty ["2B"])) rfl
  cases hf
  exact ⟨hocc, hav⟩

/-- C8: with the store's atomic list-append semantics, two concurrent reserve
commits on disjoint seat sets against the same existing flight both succeed in
either serialization order, and the final `occupiedSeats` holds every seat id
of both calls — neither write drops the other's seats. -/
theorem concurrent_reserve_no_loss (flight : Flight) (s1 s2 : List String)
    (hdisj : ∀ x ∈ s1, x ∉ s2) :
    (reserveSeatsStore (some flight) s1 = .ok (some (applyReserve flight s1)) ∧
     reserveSeatsStore (some (applyReserve flight s1)) s2 =
       .ok (some (applyReserve (applyReserve flight s1) s2)) ∧
     ∀ x, x ∈ s1 ∨ x ∈ s2 →
       x ∈ (applyReserve (applyReserve flight s1) s2).occupiedSeats) ∧
    (reserveSeatsStore (some flight) s2 = .ok (some (applyReserve flight s2)) ∧
     reserveSeatsStore (some (applyReserve flight s2)) s1 =
       .ok (some (applyReserve (applyReserve flight s2) s1)) ∧
     ∀ x, x ∈ s2 ∨ x ∈ s1 →
       x ∈ (applyReserve (applyReserve flight s2) s1).occupiedSeats) := by
  refine ⟨⟨rfl, rfl, ?_⟩, ⟨rfl, rfl, ?_⟩⟩ <;>
    · intro x hx
      simp only [applyReserve, List.mem_append]
      tauto

/-- C8 witness: the first commit of a concrete disjoint pair. -/
theorem concurrent_reserve_no_loss_witness :
    reserveSeatsStore (some flightEmpty) ["10A"] =
      .ok (some (applyReserve flightEmpty ["10A"])) :=
  (concurrent_reserve_no_loss flightEmpty ["10A"] ["10B"] (by decide)).1.1

/-- C2 counterexample: when the conditional write fails because the record
vanished, the handler's response is the 500 internal-error response carrying
the rethrown concurrent-reservation message — not a not-found (404)
classification as the claim states. -/
theorem reserve_conditional_failure_counterexample :
    reserveFlow refDate (some flightEmpty) false "FE" ["3C"] [passengerBorn 2000] =
      { statusCode := 500,
        body := .err "Internal server error"
          (some "Concurrent seat reservation detected") } ∧
    (reserveFlow refDate (some flightEmpty) false "FE" ["3C"]
      [passengerBorn 2000]).statusCode ≠ 404 := by
  refine ⟨by decide, by decide⟩

/-- C2 amended: on conditional-write failure (record gone at commit time) the
`reserveSeats` helper throws `Concurrent seat reservation detected`, which the
handler's catch-all converts into a 500 internal-error response — no not-found
classification is produced. -/
theorem reserve_conditional_failure_internal (today : SimpleDate)
    (flight : Flight) (flightId : String) (seats : List String)
    (passengers : List Passenger)
    (hid : flightId ≠ "")
    (hsel : validateSeatSelection seats passengers = true)
    (havail : validateSeatAvailability seats flight = true)
    (hem : validateEmergencyExitRows today seats passengers flight = true) :
    reserveFlow today (some flight) false flightId seats passengers =
      { statusCode := 500,
        body := .err "Internal server error"
          (some "Concurrent seat reservation detected") } := by
  simp [reserveFlow, runCatch, getFlight, reserveSeats, hsel, havail, hem,
    hid, bind, Except.bind, pure, Except.pure, createResponse]

/-- C2 amended witness: a concrete validated reservation hitting the
conditional failure. -/
theorem reserve_conditional_failure_internal_witness :
    reserveFlow refDate (some flightEmpty) false "FE2" ["4D"] [passengerBorn 2000] =
      { statusCode := 500,
        body := .err "Internal server error"
          (some "Concurrent seat reservation detected") } :=
  reserve_conditional_failure_internal refDate flightEmpty "FE2" ["4D"]
    [passengerBorn 2000] (by decide) (by decide) (by decide) (by decide)

/-- C3 counterexample: a `getSeatMap` request for a flightId the repository
does not hold yields the 500 internal-error response (details `Flight not
found`), not a response with a not-found (404) classification. -/
theorem unknown_flight_counterexample :
    getSeatMapFlow none "FL404" =
      { statusCode := 500,
        body := .err "Internal server error" (some "Flight not found") } ∧
    (getSeatMapFlow none "FL404").statusCode ≠ 404 := by
  refine ⟨by decide, by decide⟩

/-- C3 amended: for both actions, a flightId with no flight record makes
`getFlight`/`getSeatMap` throw `Flight not found`, which the catch-all turns
into a 500 internal-error response; the handler has no distinct not-found
classification. -/
theorem unknown_flight_internal_error (today : SimpleDate) (flightId : String)
    (existsAtCommit : Bool) (seats : List String) (passengers : List Passenger)
    (hid : flightId ≠ "")
    (hsel : validateSeatSelection seats passengers = true) :
    getSeatMapFlow none flightId =
      { statusCode := 500,
        body := .err "Internal server error" (some "Flight not found") } ∧
    reserveFlow today none existsAtCommit flightId seats passengers =
      { statusCode := 500,
        body := .err "Internal server error" (some "Flight not found") } := by
  constructor
  · simp [getSeatMapFlow, runCatch, getFlight, hid, bind, Except.bind, pure,
      Except.pure, createResponse]
  · simp [reserveFlow, runCatch, getFlight, hsel, hid, bind, Except.bind, pure,
      Except.pure, createResponse]

/-- C3 amended witness: concrete unknown-flight requests for both actions. -/
theorem unknown_flight_internal_error_witness :
    getSeatMapFlow none "FLX" =
      { statusCode := 500,
        body := .err "Internal server error" (some "Flight not found") } ∧
    reserveFlow refDate none true "FLX" ["4D"] [passengerBorn 2000] =
      { statusCode := 500,
        body := .err "Internal server error" (some "Flight not found") } :=
  unknown_flight_internal_error refDate "FLX" true ["4D"] [passengerBorn 2000]
    (by decide) (by decide)

/-- JS `Math.round(x)`: round half toward positive infinity,
`⌊x + 1/2⌋` (the JS float arithmetic is modelled as exact rational
arithmetic on the decimal literals involved). -/
def jsRound (q : ℚ) : Int := ⌊q + 1 / 2⌋

/-- The expression `Math.ceil((flightDate - today) / (1000 * 60 * 60 * 24))` from
`applyDynamicPricing`, both timestamps in epoch milliseconds. -/
def daysUntilFlight (todayMs flightMs : Int) : Int :=
  ⌈((flightMs - todayMs : Int) : ℚ) / (1000 * 60 * 60 * 24)⌉

/-- Function `applyDynamicPricing` from src/search-flights.js for one flight: the
multiplier starts at 1.0, is scaled by 1.3 / 1.2 / 1.1 as the departure is
within 7 / 14 / 30 days, then by 1.4 / 1.2 as the occupancy rate exceeds
0.8 / 0.6, and the fare is `Math.round(basePrice * multiplier * 100) / 100`. -/
def applyDynamicPricingOne (todayMs flightMs : Int)
    (totalSeats availableSeats basePrice : ℚ) : ℚ :=
  let d := daysUntilFlight todayMs flightMs
  let priceMultiplier : ℚ := 1
  let priceMultiplier :=
    if d ≤ 7 then priceMultiplier * (13 / 10)
    else if d ≤ 14 then priceMultiplier * (12 / 10)
    else if d ≤ 30 then priceMultiplier * (11 / 10)
    else priceMultiplier
  let occupancyRate := (totalSeats - availableSeats) / totalSeats
  let priceMultiplier :=
    if occupancyRate > 8 / 10 then priceMultiplier * (14 / 10)
    else if occupancyRate > 6 / 10 then priceMultiplier * (12 / 10)
    else priceMultiplier
  (jsRound (basePrice * priceMultiplier * 100) : ℚ) / 100

/-- The time factor of the fare multiplier, written per the spec's wording,
for comparison with `applyDynamicPricingOne`. -/
def timeFactor (d : Int) : ℚ :=
  if d ≤ 7 then 13 / 10
  else if d ≤ 14 then 12 / 10
  else if d ≤ 30 then 11 / 10
  else 1

/-- The occupancy factor of the fare multiplier, written per the spec's
wording, for comparison with `applyDynamicPricingOne`. -/
def occupancyFactor (occ : ℚ) : ℚ :=
  if occ > 8 / 10 then 14 / 10
  else if occ > 6 / 10 then 12 / 10
  else 1

/-- C5: the priced fare is basePrice times the multiplicatively stacked
time factor and occupancy factor, rounded to 2 decimal places with JS
`Math.round` semantics; concretely, 180 total seats, 170 available, base
price 200 and departure in 5 days give a fare of 260.00. -/
theorem applyDynamicPricing_spec :
    (∀ (todayMs flightMs : Int) (totalSeats availableSeats basePrice : ℚ),
      applyDynamicPricingOne todayMs flightMs totalSeats availableSeats basePrice =
        (jsRound (basePrice *
          (timeFactor (daysUntilFlight todayMs flightMs) *
           occupancyFactor ((totalSeats - availableSeats) / totalSeats)) * 100) : ℚ)
          / 100) ∧
    applyDynamicPricingOne 0 (5 * 86400000) 180 170 200 = 260 := by
  have key : ∀ a b : ℚ, a = b → ((jsRound a : ℚ)) / 100 = (jsRound b : ℚ) / 100 := by
    intro a b h
    rw [h]
  constructor
  · intro todayMs flightMs totalSeats availableSeats basePrice
    unfold applyDynamicPricingOne timeFactor occupancyFactor
    dsimp only
    split_ifs <;> exact key _ _ (by ring)
  · have hd : daysUntilFlight 0 (5 * 86400000) = 5 := by
      unfold daysUntilFlight
      norm_num
    unfold applyDynamicPricingOne
    rw [hd]
    norm_num [jsRound]

/-- A flight whose seat 5A is premium at cost 50. -/
def premiumFlight : Flight :=
  { flightEmpty with
    flightId := "FP", premiumSeats := ["5A"], premiumSeatCost := 50 }

/-- C9: the seat id 40A matches the format pattern and sails through the whole
reservation pipeline of a flight where it is unoccupied and its row is not an
emergency-exit row — it is committed into `occupiedSeats` — although no
generated seat map of any flight ever contains a seat with id 40A (the
generator stops at row 30). -/
theorem phantom_seat_reservable :
    seatPattern "40A" = true ∧
    reserveFlow refDate (some flightEmpty) true "FE" ["40A"] [passengerBorn 2000] =
      { statusCode := 200, body := .reserveOk ["40A"] 0 } ∧
    (applyReserve flightEmpty ["40A"]).occupiedSeats = ["40A"] ∧
    ∀ flight : Flight, ¬ ("40A" ∈ (generateSeatMap flight).map Seat.id) := by
  refine ⟨by decide, by decide, by decide, ?_⟩
  intro flight
  rw [generateSeatMap_map_id]
  decide

/-- C10: a selection naming the same free premium seat twice, with two
passengers, passes every validation check; the reservation succeeds, the id
is appended once per occurrence, and the premium surcharge is charged once
per occurrence. -/
theorem duplicate_seat_double_append_and_charge :
    validateSeatSelection ["5A", "5A"]
      [passengerBorn 2000, passengerBorn 1990] = true ∧
    validateSeatAvailability ["5A", "5A"] premiumFlight = true ∧
    validateEmergencyExitRows refDate ["5A", "5A"]
      [passengerBorn 2000, passengerBorn 1990] premiumFlight = true ∧
    reserveFlow refDate (some premiumFlight) true "FP" ["5A", "5A"]
      [passengerBorn 2000, passengerBorn 1990] =
      { statusCode := 200, body := .reserveOk ["5A", "5A"] 100 } ∧
    calculateSeatCost ["5A", "5A"] premiumFlight =
      2 * premiumFlight.premiumSeatCost ∧
    (applyReserve premiumFlight ["5A", "5A"]).occupiedSeats.count "5A" =
      premiumFlight.occupiedSeats.count "5A" + 2 := by
  have hsel : validateSeatSelection ["5A", "5A"]
      [passengerBorn 2000, passengerBorn 1990] = true := by decide
  have hav : validateSeatAvailability ["5A", "5A"] premiumFlight = true := by
    decide
  have hem : validateEmergencyExitRows refDate ["5A", "5A"]
      [passengerBorn 2000, passengerBorn 1990] premiumFlight = true := by decide
  have hid : ("FP" : String) ≠ "" := by decide
  have hcost : calculateSeatCost ["5A", "5A"] premiumFlight = 100 := by
    norm_num [calculateSeatCost, premiumFlight, flightEmpty, List.foldl]
  refine ⟨hsel, hav, hem, ?_, ?_, by decide⟩
  · simp [reserveFlow, runCatch, getFlight, reserveSeats, bind, Except.bind,
      pure, Except.pure, createResponse, hsel, hav, hem, hid, hcost]
  · rw [hcost]
    norm_num [premiumFlight, flightEmpty]

/-- C4 witness: the age-range characterization read off at a concrete
emergency-exit selection. -/
theorem validateEmergencyExitRows_age_range_witness :
    validateEmergencyExitRows refDate ["1A"] [passengerBorn 2011] flightEmpty = true :=
  (validateEmergencyExitRows_age_range refDate ["1A"] [passengerBorn 2011]
    flightEmpty).2.1.2

/-- C5 witness: the worked example of the pricing formula. -/
theorem applyDynamicPricing_spec_witness :
    applyDynamicPricingOne 0 (5 * 86400000) 180 170 200 = 260 :=
  applyDynamicPricing_spec.2

/-- C6 witness: the empty selection accepted against a concrete flight. -/
theorem validate_empty_selection_witness :
    validateSeatSelection [] [] = true ∧
    validateSeatAvailability [] flightEmpty = true ∧
    validateEmergencyExitRows refDate [] [] flightEmpty = true :=
  validate_empty_selection [] flightEmpty refDate
